import Mathlib

/-!
Shallow embedding of the goal-detection and notification-deduplication engine
of the nhl-goal-bot repository (src/index.mjs).

The stateful engine is modelled by pure functions over an explicit store:

* `previousScores` (a JS object keyed by goal-key strings) becomes an
  association list `Store`; JS property lookup/assignment/deletion become
  `findRec` / `setRec` / `eraseRec` (iteration order is irrelevant to the
  logic, which only ever uses lookup and an existential scan).
* Timestamps are milliseconds as `Nat`.  `isToday` follows the `getEasternTime` arithmetic of the source (shift by -5h, compare calendar days; the
  deployment clock is UTC, so day comparison is floor-division by 86400000).
* The external effects of `handleGoalUpdate` are made explicit: the re-fetched
  play-by-play after the settle delay is a `FetchResult` parameter, and the
  outcome of the (at most one logical) publish attempt - a Bluesky response
  carrying a `uri`, possibly after one login renewal and retry - is a
  `postOk : Bool` parameter.  Each `bot.post` call site is recorded in the
  output `posts` list, tagged by call site.
* The per-key posting lock (`setPostingLock`) is modelled by `lockBlocks`
  over the `postingInProgress` map.
-/

namespace NHLGoalBot

/-- Raw away/home score pair carried on a goal (`play.details.awayScore` /
`homeScore`), the authoritative score used for identity and duplicates. -/
structure RawScores where
  away : Nat
  home : Nat
deriving DecidableEq

/-- Period label as built at src/index.mjs:196-198: the period number for a
regulation period, otherwise the period-type string of the provider.  JS `===`
between a number and a string is `false`, which the sum type mirrors. -/
inductive PeriodLabel where
  | num (n : Nat)
  | lab (s : String)
deriving DecidableEq

/-- String form of a period label, as produced by JS template literals. -/
def PeriodLabel.str : PeriodLabel → String
  | .num n => toString n
  | .lab s => s

/-- Canonical Goal value produced by `processGoalPlay`. -/
structure Goal where
  eventId : Nat
  scorer : String
  assists : String
  time : String
  period : PeriodLabel
  team : String
  score : String
  rawScores : RawScores
deriving DecidableEq

/-- Home/away team abbreviations handed to `handleGoalUpdate`. -/
structure Teams where
  away : String
  home : String
deriving DecidableEq

/-- Tracked goal record stored in `previousScores` (src/index.mjs:318-324). -/
structure ScoreRecord where
  firstSeen : Nat
  posted : Bool
  updateCount : Nat
  timestamp : Nat
  goal : Goal
deriving DecidableEq

/-- `config.MAX_UPDATES` (src/index.mjs:9). -/
def MAX_UPDATES : Nat := 2

/-- `getAgeInMinutes` (src/index.mjs:66-69): `Math.round((now - ts)/60000)`.
For `ts ≤ now`, `Math.round(x/60000) = ⌊(x + 30000)/60000⌋`; for `ts > now`
the JS value is negative and the Nat value is 0 - in both models the only
use, the comparison with 360, then yields `false`. -/
def getAgeInMinutes (now ts : Nat) : Nat := (now - ts + 30000) / 60000

/-- Calendar-day index of a timestamp after the Eastern-time shift performed
by `getEasternTime` (src/index.mjs:46-50): subtract 5 hours (18000000 ms) and
take the floor day.  `Int.fdiv` is floor division, matching JS `Date`
calendar fields for a UTC process clock. -/
def etDay (t : Nat) : Int := ((t : Int) - 18000000).fdiv 86400000

/-- `isToday` (src/index.mjs:71-77): both timestamps fall on the same
calendar day after the Eastern-time shift. -/
def isToday (ts now : Nat) : Bool := decide (etDay ts = etDay now)

/-- JS `String.prototype.startsWith`, used at src/index.mjs:274 to decide
whether a tracked key belongs to the incoming game. -/
def strStartsWith (s p : String) : Bool := p.data.isPrefixOf s.data

/-- `goal.time.split(':')[0]` (src/index.mjs:106, 269, 276): the characters
before the first colon (the whole string when there is no colon). -/
def minutesOf (t : String) : String := String.mk (t.data.takeWhile (fun c => c ≠ ':'))

/-- `createGoalKey` (src/index.mjs:105-108). -/
def createGoalKey (gameId : String) (goal : Goal) : String :=
  gameId ++ "-" ++ toString goal.eventId ++ "-" ++ goal.scorer ++ "-" ++
    goal.period.str ++ "-" ++ minutesOf goal.time ++ "-" ++
    toString goal.rawScores.away ++ "-" ++ toString goal.rawScores.home

/-- `formatGoalMessage` (src/index.mjs:110-120). -/
def formatGoalMessage (goal : Goal) (teams : Teams) (isUpdate : Bool) : String :=
  let message := if isUpdate then "Updated Goal Info:\n" else "GOAL! 🚨\n"
  let message := message ++ teams.away ++ " vs. " ++ teams.home ++ "\n"
  let message := message ++ goal.scorer ++ " (" ++ goal.team ++ ") " ++
    (if isUpdate then "was" else "is") ++ " the scorer!"
  let message := if goal.assists ≠ "" then message ++ "\nAssists: " ++ goal.assists else message
  let message := message ++ "\nTime: " ++ goal.time ++ " - " ++ goal.period.str
  message ++ "\nScore: " ++ goal.score

/-- `getUpdatedFields` (src/index.mjs:212-219). -/
def getUpdatedFields (newGoal oldGoal : Goal) : List String :=
  (if newGoal.scorer ≠ oldGoal.scorer then ["scorer"] else []) ++
  (if newGoal.assists ≠ oldGoal.assists then ["assists"] else []) ++
  (if newGoal.period ≠ oldGoal.period then ["period"] else []) ++
  (if newGoal.score ≠ oldGoal.score then ["score"] else [])

/-- Correction message built inline at src/index.mjs:421-431. -/
def formatCorrectionMessage (goal prevGoal : Goal) (teams : Teams)
    (updatedFields : List String) : String :=
  let message := "CORRECTION: "
  let message := if updatedFields.contains "scorer" then
      message ++ "Goal now credited to " ++ goal.scorer ++ " (previously " ++
        prevGoal.scorer ++ ")\n"
    else message
  let message := message ++ teams.away ++ " vs. " ++ teams.home ++ "\n"
  let message := if goal.assists ≠ "" then message ++ "Assists: " ++ goal.assists ++ "\n"
    else message
  message ++ "Time: " ++ goal.time ++ " - " ++ goal.period.str ++ "\nScore: " ++ goal.score

/-! ### Raw play-by-play data and the Event Normalizer -/

/-- Localized name object (`firstName.default` etc.). -/
structure PlayerName where
  default : String
deriving DecidableEq

/-- Roster entry (`data.rosterSpots[i]`). -/
structure RosterSpot where
  playerId : Nat
  firstName : PlayerName
  lastName : PlayerName
  sweaterNumber : Nat
deriving DecidableEq

/-- Assist reference inside `play.details.assists`. -/
structure AssistRef where
  playerId : Nat
deriving DecidableEq

/-- `play.periodDescriptor`. -/
structure PeriodDescriptor where
  number : Nat
  periodType : String
deriving DecidableEq

/-- `play.details` of a scoring play. -/
structure PlayDetails where
  scoringPlayerId : Nat
  eventOwnerTeamId : Nat
  assists : List AssistRef
  awayScore : Nat
  homeScore : Nat
deriving DecidableEq

/-- A raw play entry; `details` is `none` when the detail block is missing
(`!play.details` at src/index.mjs:165-167). -/
structure Play where
  eventId : Nat
  details : Option PlayDetails
  timeInPeriod : String
  periodDescriptor : PeriodDescriptor
deriving DecidableEq

/-- `data.homeTeam` / `data.awayTeam`; `teamAbbrev` models the JS `abbrev`
field (`abbrev` is a Lean keyword). -/
structure TeamInfo where
  id : Nat
  teamAbbrev : String
deriving DecidableEq

/-- Game context used by the Normalizer. -/
structure GameData where
  plays : List Play
  rosterSpots : List RosterSpot
  homeTeam : TeamInfo
  awayTeam : TeamInfo
deriving DecidableEq

/-- Formatted player description used for scorer and assists. -/
def playerLabel (r : RosterSpot) : String :=
  r.firstName.default ++ " " ++ r.lastName.default ++ " (#" ++ toString r.sweaterNumber ++ ")"

/-- `processGoalPlay` (src/index.mjs:163-210).  Returns `none` when the play
has no detail block (the thrown error is caught and `null` returned).  An
empty selected abbreviation is JS-falsy, so the JS fallback of `scoringTeam` to the label `"Unknown Team"`
is modelled by the emptiness test. -/
def processGoalPlay (play : Play) (data : GameData) : Option Goal :=
  match play.details with
  | none => none
  | some details =>
    let scorerSpot := data.rosterSpots.find? fun p => p.playerId == details.scoringPlayerId
    let processedAssists := String.intercalate ", " (details.assists.map fun assist =>
      match data.rosterSpots.find? (fun p => p.playerId == assist.playerId) with
      | some spot => playerLabel spot
      | none => "Unknown Player")
    let scoringTeam := if details.eventOwnerTeamId == data.homeTeam.id then
        data.homeTeam.teamAbbrev
      else data.awayTeam.teamAbbrev
    some {
      eventId := play.eventId
      scorer := match scorerSpot with
        | some spot => playerLabel spot
        | none => "Unknown Player"
      assists := processedAssists
      time := play.timeInPeriod
      period := if play.periodDescriptor.periodType = "REG" then
          PeriodLabel.num play.periodDescriptor.number
        else PeriodLabel.lab play.periodDescriptor.periodType
      team := if scoringTeam = "" then "Unknown Team" else scoringTeam
      score := toString details.awayScore ++ " - " ++ toString details.homeScore
      rawScores := { away := details.awayScore, home := details.homeScore } }

/-! ### Notification state store and posting locks -/

/-- `previousScores`: association list from goal-key strings to records. -/
abbrev Store := List (String × ScoreRecord)

/-- JS object property lookup. -/
def findRec : Store → String → Option ScoreRecord
  | [], _ => none
  | (k1, r) :: rest, k => if k1 = k then some r else findRec rest k

/-- JS `delete previousScores[key]`. -/
def eraseRec : Store → String → Store
  | [], _ => []
  | (k1, r) :: rest, k => if k1 = k then eraseRec rest k else (k1, r) :: eraseRec rest k

/-- JS `previousScores[key] = value` (keys are unique; iteration order is
never used by the logic, only lookup and the existential duplicate scan). -/
def setRec (st : Store) (k : String) (v : ScoreRecord) : Store :=
  (k, v) :: eraseRec st k

/-- `postingInProgress`: goal key to lock acquisition time. -/
abbrev Locks := List (String × Nat)

/-- Lookup in the lock map. -/
def findLock : Locks → String → Option Nat
  | [], _ => none
  | (k1, t) :: rest, k => if k1 = k then some t else findLock rest k

/-- `setPostingLock` (src/index.mjs:27-39) returns `false` - the observation
is skipped - exactly when a lock exists and is at most 60000 ms old; an older
lock is cleared as stale and acquisition proceeds. -/
def lockBlocks (locks : Locks) (now : Nat) (k : String) : Bool :=
  match findLock locks k with
  | some t => decide (now - t ≤ 60000)
  | none => false

/-- A publish call made to the social-posting collaborator, tagged by call
site: `goalPost` for the new-goal/retry announcements (src/index.mjs:339,
384), `correctionPost` for the correction branch (src/index.mjs:435). -/
inductive Post where
  | goalPost (text : String)
  | correctionPost (text : String)
deriving DecidableEq

/-- Whether a publish is a new-goal announcement (as opposed to a correction). -/
def isGoalAnnouncement : Post → Bool
  | .goalPost _ => true
  | .correctionPost _ => false

/-- Outcome of the post-settle-delay re-fetch of the play-by-play of the game
(src/index.mjs:330): either the fetch threw, or it returned a play list. -/
inductive FetchResult where
  | fetchError
  | fetchOk (plays : List Play)
deriving DecidableEq

/-- Result of one `handleGoalUpdate` call: the store afterwards and the
publish calls made (in order). -/
structure HandleResult where
  store : Store
  posts : List Post
deriving DecidableEq

/-- Forced removal of an over-age or not-today record under the key of the incoming
goal (src/index.mjs:250-267). -/
def pruneGoalKey (now : Nat) (goalKey : String) (st : Store) : Store :=
  match findRec st goalKey with
  | some r =>
      if 360 < getAgeInMinutes now r.timestamp ∨ isToday r.timestamp now = false then
        eraseRec st goalKey
      else st
  | none => st

/-- The test applied to one entry inside the duplicate scan (src/index.mjs:273-295). -/
def isDupMatch (gameId : String) (goal : Goal) (now : Nat)
    (key : String) (value : ScoreRecord) : Bool :=
  strStartsWith key gameId && value.posted && isToday value.timestamp now &&
    (decide (value.goal.period = goal.period) &&
     decide (minutesOf value.goal.time = minutesOf goal.time) &&
     decide (value.goal.scorer = goal.scorer) &&
     decide (value.goal.rawScores.away = goal.rawScores.away) &&
     decide (value.goal.rawScores.home = goal.rawScores.home))

/-- The duplicate scan over all tracked entries (src/index.mjs:273-295). -/
def scanDuplicate (gameId : String) (goal : Goal) (now : Nat) (st : Store) : Bool :=
  st.any fun kv => isDupMatch gameId goal now kv.1 kv.2

/-- New-goal path (src/index.mjs:317-376): claim the key with an unposted
record, wait the settle delay, re-fetch, and either publish (marking posted
on confirmed success), keep the unposted record on publish failure, or delete
the record when the event vanished or the re-fetch threw. -/
def newGoalPath (now : Nat) (goalKey : String) (goal : Goal) (teams : Teams)
    (refetch : FetchResult) (postOk : Bool) (st1 : Store) : HandleResult :=
  let rec0 : ScoreRecord :=
    { firstSeen := now, posted := false, updateCount := 0, timestamp := now, goal := goal }
  let st2 := setRec st1 goalKey rec0
  match refetch with
  | .fetchError => { store := eraseRec st2 goalKey, posts := [] }
  | .fetchOk plays =>
    let updatedGoalPlay := plays.find? fun p => p.eventId == goal.eventId
    let alreadyPosted := match findRec st2 goalKey with
      | some r => r.posted
      | none => false
    if updatedGoalPlay.isSome && !alreadyPosted then
      let message := formatGoalMessage goal teams false
      if postOk then
        { store := setRec st2 goalKey { rec0 with posted := true, timestamp := now },
          posts := [Post.goalPost message] }
      else
        { store := setRec st2 goalKey { rec0 with posted := false },
          posts := [Post.goalPost message] }
    else
      { store := eraseRec st2 goalKey, posts := [] }

/-- Retry path for a previously unposted record (src/index.mjs:377-413). -/
def retryPath (now : Nat) (goalKey : String) (goal : Goal) (teams : Teams)
    (postOk : Bool) (r : ScoreRecord) (st1 : Store) : HandleResult :=
  let message := formatGoalMessage goal teams false
  if postOk then
    { store := setRec st1 goalKey { r with posted := true, timestamp := now },
      posts := [Post.goalPost message] }
  else
    { store := setRec st1 goalKey { r with posted := false },
      posts := [Post.goalPost message] }

/-- Update/correction path (src/index.mjs:414-461).  Note the source
increments `updateCount` (line 417) before computing the diff, so the slot is
consumed even when no correction is sent or the publish is unconfirmed. -/
def updatePath (now : Nat) (goalKey : String) (goal : Goal) (teams : Teams)
    (postOk : Bool) (r : ScoreRecord) (st1 : Store) : HandleResult :=
  let r1 := { r with updateCount := r.updateCount + 1 }
  let updatedFields := getUpdatedFields goal r.goal
  if 0 < updatedFields.length then
    let message := formatCorrectionMessage goal r.goal teams updatedFields
    if postOk then
      { store := setRec st1 goalKey { r1 with goal := goal, timestamp := now },
        posts := [Post.correctionPost message] }
    else
      { store := setRec st1 goalKey r1, posts := [Post.correctionPost message] }
  else
    { store := setRec st1 goalKey r1, posts := [] }

/-- Exact-key dispatch (src/index.mjs:317-470): the state machine taken when
the duplicate scan found nothing - new (no record), retry (unposted record),
update (posted record, updates left, recorded today), or skip. -/
def dispatchKey (now : Nat) (goalKey : String) (goal : Goal) (teams : Teams)
    (refetch : FetchResult) (postOk : Bool) (st1 : Store) : HandleResult :=
  match findRec st1 goalKey with
  | none => newGoalPath now goalKey goal teams refetch postOk st1
  | some r =>
    if r.posted = false then retryPath now goalKey goal teams postOk r st1
    else if r.posted = true ∧ r.updateCount < MAX_UPDATES ∧ isToday r.timestamp now = true then
      updatePath now goalKey goal teams postOk r st1
    else
      { store := st1, posts := [] }

/-- `handleGoalUpdate` (src/index.mjs:236-478), sequential semantics: lock
gate, forced removal under the incoming key, duplicate scan, then the
exact-key state machine. -/
def handleGoalUpdate (now : Nat) (locks : Locks) (gameId : String) (goal : Goal)
    (teams : Teams) (refetch : FetchResult) (postOk : Bool) (st : Store) : HandleResult :=
  if lockBlocks locks now (createGoalKey gameId goal) then { store := st, posts := [] }
  else if scanDuplicate gameId goal now (pruneGoalKey now (createGoalKey gameId goal) st) then
    { store := pruneGoalKey now (createGoalKey gameId goal) st, posts := [] }
  else
    dispatchKey now (createGoalKey gameId goal) goal teams refetch postOk
      (pruneGoalKey now (createGoalKey gameId goal) st)

/-- The once-per-poll-cycle store maintenance in `pollGames`
(src/index.mjs:532-542): the whole store is cleared when the last memory
reset is no longer on the current calendar day; otherwise nothing is
removed. -/
def sweepScores (lastReset now : Nat) (st : Store) : Store :=
  if isToday lastReset now then st else []

/-! ### Basic lemmas about the store, the key, and the scan -/

theorem findRec_eraseRec_self (st : Store) (k : String) :
    findRec (eraseRec st k) k = none := by
  induction st with
  | nil => rfl
  | cons kv rest ih =>
    obtain ⟨k1, r⟩ := kv
    by_cases h : k1 = k <;> simp [eraseRec, findRec, h, ih]

theorem findRec_eraseRec_ne (st : Store) {k k' : String} (h : k' ≠ k) :
    findRec (eraseRec st k) k' = findRec st k' := by
  induction st with
  | nil => rfl
  | cons kv rest ih =>
    obtain ⟨k1, r⟩ := kv
    by_cases h1 : k1 = k
    · have h2 : ¬ k1 = k' := fun hc => h ((h1 ▸ hc : k = k').symm)
      simp only [eraseRec, findRec, if_pos h1, if_neg h2, ih]
    · by_cases h2 : k1 = k'
      · simp only [eraseRec, findRec, if_neg h1, if_pos h2]
      · simp only [eraseRec, findRec, if_neg h1, if_neg h2, ih]

theorem findRec_setRec_self (st : Store) (k : String) (v : ScoreRecord) :
    findRec (setRec st k v) k = some v := by
  simp [setRec, findRec]

theorem findRec_setRec_ne (st : Store) {k k' : String} (v : ScoreRecord) (h : k' ≠ k) :
    findRec (setRec st k v) k' = findRec st k' := by
  have h2 : ¬ k = k' := fun hc => h hc.symm
  simp [setRec, findRec, h2, findRec_eraseRec_ne st h]

theorem mem_of_findRec {st : Store} {k : String} {r : ScoreRecord}
    (h : findRec st k = some r) : (k, r) ∈ st := by
  induction st with
  | nil => simp [findRec] at h
  | cons kv rest ih =>
    obtain ⟨k1, r1⟩ := kv
    by_cases h1 : k1 = k
    · subst h1
      simp [findRec] at h
      simp [h]
    · simp [findRec, h1] at h
      exact List.mem_cons_of_mem _ (ih h)

theorem mem_eraseRec {st : Store} {k : String} {kv : String × ScoreRecord}
    (h : kv ∈ eraseRec st k) : kv ∈ st := by
  induction st with
  | nil => simp [eraseRec] at h
  | cons kv1 rest ih =>
    obtain ⟨k1, r1⟩ := kv1
    by_cases h1 : k1 = k
    · simp only [eraseRec, if_pos h1] at h
      exact List.mem_cons_of_mem _ (ih h)
    · simp only [eraseRec, if_neg h1, List.mem_cons] at h
      rcases h with h | h
      · exact h ▸ List.mem_cons_self _ _
      · exact List.mem_cons_of_mem _ (ih h)

theorem mem_setRec {st : Store} {k : String} {v : ScoreRecord} {kv : String × ScoreRecord}
    (h : kv ∈ setRec st k v) : kv = (k, v) ∨ kv ∈ st := by
  simp only [setRec, List.mem_cons] at h
  rcases h with h | h
  · exact Or.inl h
  · exact Or.inr (mem_eraseRec h)

theorem mem_pruneGoalKey {now : Nat} {k : String} {st : Store} {kv : String × ScoreRecord}
    (h : kv ∈ pruneGoalKey now k st) : kv ∈ st := by
  rcases hf : findRec st k with _ | r
  · simp only [pruneGoalKey, hf] at h
    exact h
  · simp only [pruneGoalKey, hf] at h
    split at h
    · exact mem_eraseRec h
    · exact h

theorem pruneGoalKey_of_none {now : Nat} {k : String} {st : Store}
    (h : findRec st k = none) : pruneGoalKey now k st = st := by
  simp only [pruneGoalKey, h]

theorem pruneGoalKey_noop {now : Nat} {k : String} {st : Store} {r : ScoreRecord}
    (h : findRec st k = some r)
    (hage : getAgeInMinutes now r.timestamp ≤ 360)
    (htoday : isToday r.timestamp now = true) : pruneGoalKey now k st = st := by
  simp only [pruneGoalKey, h]
  rw [if_neg]
  push_neg
  exact ⟨hage, fun hc => by rw [htoday] at hc; cases hc⟩

theorem findRec_pruneGoalKey_gone {now : Nat} {k : String} {st : Store} {r : ScoreRecord}
    (h : findRec st k = some r)
    (hcond : 360 < getAgeInMinutes now r.timestamp ∨ isToday r.timestamp now = false) :
    findRec (pruneGoalKey now k st) k = none := by
  simp only [pruneGoalKey, h]
  rw [if_pos hcond]
  exact findRec_eraseRec_self st k

theorem scanDuplicate_of_match {gameId : String} {goal : Goal} {now : Nat} {st : Store}
    {k : String} {r : ScoreRecord} (hmem : (k, r) ∈ st)
    (hmatch : isDupMatch gameId goal now k r = true) :
    scanDuplicate gameId goal now st = true := by
  unfold scanDuplicate
  rw [List.any_eq_true]
  exact ⟨(k, r), hmem, hmatch⟩

theorem strStartsWith_append (a b : String) : strStartsWith (a ++ b) a = true := by
  simp [strStartsWith, String.data_append, List.isPrefixOf_iff_prefix]

/-- Every key built by `createGoalKey` for a game starts with the id of that game,
so the `key.startsWith(gameId)` test of the duplicate scan accepts it. -/
theorem key_startsWith (gid : String) (g : Goal) :
    strStartsWith (createGoalKey gid g) gid = true := by
  simp only [createGoalKey, String.append_assoc]
  exact strStartsWith_append gid _

theorem getUpdatedFields_eq_nil {newGoal oldGoal : Goal}
    (h : getUpdatedFields newGoal oldGoal = []) :
    newGoal.scorer = oldGoal.scorer ∧ newGoal.assists = oldGoal.assists ∧
      newGoal.period = oldGoal.period ∧ newGoal.score = oldGoal.score := by
  unfold getUpdatedFields at h
  by_cases h1 : newGoal.scorer = oldGoal.scorer <;>
    by_cases h2 : newGoal.assists = oldGoal.assists <;>
      by_cases h3 : newGoal.period = oldGoal.period <;>
        by_cases h4 : newGoal.score = oldGoal.score <;>
          simp [h1, h2, h3, h4] at h ⊢

/-! ### Path-level lemmas -/

theorem updatePath_posts_not_announcement (now : Nat) (goalKey : String) (goal : Goal)
    (teams : Teams) (postOk : Bool) (r : ScoreRecord) (st1 : Store) :
    ∀ p ∈ (updatePath now goalKey goal teams postOk r st1).posts,
      isGoalAnnouncement p = false := by
  simp only [updatePath]
  split
  · split <;>
      (intro p hp; rw [List.mem_singleton.mp hp]; rfl)
  · intro p hp; cases hp

theorem updatePath_keeps_posted (now : Nat) (goalKey : String) (goal : Goal)
    (teams : Teams) (postOk : Bool) (r : ScoreRecord) (st1 : Store)
    (h : r.posted = true) :
    ∃ r2, findRec (updatePath now goalKey goal teams postOk r st1).store goalKey = some r2 ∧
      r2.posted = true := by
  simp only [updatePath]
  split
  · split
    · exact ⟨_, findRec_setRec_self _ _ _, h⟩
    · exact ⟨_, findRec_setRec_self _ _ _, h⟩
  · exact ⟨_, findRec_setRec_self _ _ _, h⟩

theorem etDay_mono {a b : Nat} (h : a ≤ b) : etDay a ≤ etDay b := by
  unfold etDay
  rw [Int.fdiv_eq_ediv _ (by norm_num), Int.fdiv_eq_ediv _ (by norm_num)]
  apply Int.ediv_le_ediv (by norm_num)
  omega

theorem isToday_false_of_le {lastReset ts now : Nat}
    (h1 : lastReset ≤ ts) (h2 : ts ≤ now) (h : isToday ts now = false) :
    isToday lastReset now = false := by
  unfold isToday at h ⊢
  rw [decide_eq_false_iff_not] at h ⊢
  have hmono1 := etDay_mono h1
  have hmono2 := etDay_mono h2
  omega

/-! ### Concrete example values used by witnesses and counterexamples -/

/-- October 4, 2024, 9:00 am Eastern (ms since epoch): a reference "now". -/
def exNow : Nat := 1728045600000

/-- 400 minutes before `exNow`, still on the same Eastern calendar day. -/
def exTs : Nat := 1728021600000

/-- A timestamp on the previous Eastern calendar day. -/
def exTsPrev : Nat := 1727930000000

def exTeams : Teams := { away := "NYR", home := "BOS" }

def exGoal : Goal :=
  { eventId := 7, scorer := "John Doe (#97)", assists := "Al Smith (#10)",
    time := "04:12", period := .num 1, team := "BOS", score := "0 - 1",
    rawScores := { away := 0, home := 1 } }

def exGameId : String := "2023020001"

def exKey : String := createGoalKey exGameId exGoal

/-- A record for `exGoal` that was posted just now. -/
def exRecPosted : ScoreRecord :=
  { firstSeen := exNow, posted := true, updateCount := 0, timestamp := exNow, goal := exGoal }

def exStore : Store := [(exKey, exRecPosted)]

/-- `exGoal` with only the assists changed (same identity key). -/
def exGoalAssistsChanged : Goal := { exGoal with assists := "Bo Jones (#11)" }

/-- `exGoal` with only the scorer changed (a different identity key). -/
def exGoalScorerChanged : Goal := { exGoal with scorer := "Jane Roe (#88)" }

/-- A posted record for `exGoal` whose timestamp is 400 minutes old but still
on the current Eastern day. -/
def exRecStale : ScoreRecord :=
  { firstSeen := exTs, posted := true, updateCount := 0, timestamp := exTs, goal := exGoal }

def exStoreStale : Store := [(exKey, exRecStale)]

/-- A raw play with `eventId` 7, as returned by the settle-delay re-fetch. -/
def exPlay7 : Play :=
  { eventId := 7,
    details := some { scoringPlayerId := 42, eventOwnerTeamId := 10, assists := [],
                      awayScore := 0, homeScore := 1 },
    timeInPeriod := "04:12",
    periodDescriptor := { number := 1, periodType := "REG" } }

/-! ### Claim C1 -/

/-- Claim C1: once a publish for an identity key has been confirmed
(`posted = true`), no later observation of the same key - while the record is
within the retention window (age at most 360 minutes and recorded on the
current Eastern day, so the forced removal at src/index.mjs:250-267 does not
evict it) - causes a second new-goal announcement: every publish call made by
`handleGoalUpdate` on that observation is a correction, never a new-goal
announcement, and the record stays `posted`.  Together with the fact that the
new-goal and retry call sites run only when the record is absent or unposted,
this gives "at most one new-goal announcement per key within the retention
window" across an execution. -/
theorem c1_no_second_new_goal_announcement
    (now : Nat) (locks : Locks) (gameId : String) (goal : Goal) (teams : Teams)
    (refetch : FetchResult) (postOk : Bool) (st : Store) (r : ScoreRecord)
    (hfind : findRec st (createGoalKey gameId goal) = some r)
    (hposted : r.posted = true)
    (hage : getAgeInMinutes now r.timestamp ≤ 360)
    (htoday : isToday r.timestamp now = true) :
    (∀ p ∈ (handleGoalUpdate now locks gameId goal teams refetch postOk st).posts,
        isGoalAnnouncement p = false) ∧
    ∃ r2, findRec (handleGoalUpdate now locks gameId goal teams refetch postOk st).store
        (createGoalKey gameId goal) = some r2 ∧ r2.posted = true := by
  have hprune : pruneGoalKey now (createGoalKey gameId goal) st = st :=
    pruneGoalKey_noop hfind hage htoday
  unfold handleGoalUpdate
  rw [hprune]
  by_cases hlock : lockBlocks locks now (createGoalKey gameId goal) = true
  · rw [if_pos hlock]
    exact ⟨fun p hp => absurd hp (List.not_mem_nil p), r, hfind, hposted⟩
  · rw [if_neg hlock]
    by_cases hscan : scanDuplicate gameId goal now st = true
    · rw [if_pos hscan]
      exact ⟨fun p hp => absurd hp (List.not_mem_nil p), r, hfind, hposted⟩
    · rw [if_neg hscan]
      unfold dispatchKey
      rw [hfind]
      dsimp only
      have hnotfalse : ¬ r.posted = false := by rw [hposted]; exact fun hc => by cases hc
      rw [if_neg hnotfalse]
      by_cases hcond : r.posted = true ∧ r.updateCount < MAX_UPDATES ∧ isToday r.timestamp now = true
      · rw [if_pos hcond]
        exact ⟨updatePath_posts_not_announcement _ _ _ _ _ _ _,
               updatePath_keeps_posted _ _ _ _ _ _ _ hposted⟩
      · rw [if_neg hcond]
        exact ⟨fun p hp => absurd hp (List.not_mem_nil p), r, hfind, hposted⟩

/-- Witness for C1 at a concrete posted record re-observed immediately. -/
theorem c1_no_second_new_goal_announcement_witness :
    (∀ p ∈ (handleGoalUpdate exNow [] exGameId exGoal exTeams (.fetchOk []) true exStore).posts,
        isGoalAnnouncement p = false) ∧
    ∃ r2, findRec (handleGoalUpdate exNow [] exGameId exGoal exTeams (.fetchOk []) true exStore).store
        (createGoalKey exGameId exGoal) = some r2 ∧ r2.posted = true :=
  c1_no_second_new_goal_announcement exNow [] exGameId exGoal exTeams (.fetchOk []) true exStore
    exRecPosted (by decide) (by decide) (by decide) (by decide)

/-! ### Claim C2 -/

/-- Claim C2: when some record tracked at scan time belongs to the same game
(its key was built by `createGoalKey` from the id of this game), is posted, has a
same-Eastern-day timestamp, and agrees with the incoming goal on period,
clock-minute, scorer, and both raw score components, `handleGoalUpdate`
classifies the goal as a duplicate and takes no further action: no publish
call is made and the store is exactly what the independent per-key retention
removal left (in particular, when the exact key of the incoming goal has no
record - the archetypal shifted-seconds duplicate - the store is completely
unchanged).  Nothing constrains the seconds component of either clock. -/
theorem c2_duplicate_dropped
    (now : Nat) (locks : Locks) (gameId : String) (goal : Goal) (teams : Teams)
    (refetch : FetchResult) (postOk : Bool) (st : Store) (k : String) (r : ScoreRecord)
    (hlock : lockBlocks locks now (createGoalKey gameId goal) = false)
    (hmem : findRec (pruneGoalKey now (createGoalKey gameId goal) st) k = some r)
    (hk : k = createGoalKey gameId r.goal)
    (hposted : r.posted = true)
    (htoday : isToday r.timestamp now = true)
    (hperiod : r.goal.period = goal.period)
    (hmin : minutesOf r.goal.time = minutesOf goal.time)
    (hscorer : r.goal.scorer = goal.scorer)
    (hraw : r.goal.rawScores = goal.rawScores) :
    (handleGoalUpdate now locks gameId goal teams refetch postOk st).posts = [] ∧
    (handleGoalUpdate now locks gameId goal teams refetch postOk st).store =
      pruneGoalKey now (createGoalKey gameId goal) st ∧
    (findRec st (createGoalKey gameId goal) = none →
      (handleGoalUpdate now locks gameId goal teams refetch postOk st).store = st) := by
  have hmatch : isDupMatch gameId goal now k r = true := by
    unfold isDupMatch
    rw [hk]
    simp [key_startsWith, hposted, htoday, hperiod, hmin, hscorer, hraw]
  have hscan : scanDuplicate gameId goal now
      (pruneGoalKey now (createGoalKey gameId goal) st) = true :=
    scanDuplicate_of_match (mem_of_findRec hmem) hmatch
  have hlock' : ¬ lockBlocks locks now (createGoalKey gameId goal) = true := by
    rw [hlock]; exact fun hc => by cases hc
  unfold handleGoalUpdate
  rw [if_neg hlock', if_pos hscan]
  exact ⟨rfl, rfl, fun hnone => by rw [pruneGoalKey_of_none hnone]⟩

/-- `exGoal` re-observed with a new provider event id and the clock shifted
by three seconds within the same minute: a different identity key. -/
def exGoalNewEvent : Goal := { exGoal with eventId := 8, time := "04:09" }

/-- Witness for C2: the shifted-seconds re-observation is dropped and the
store is untouched. -/
theorem c2_duplicate_dropped_witness :
    (handleGoalUpdate exNow [] exGameId exGoalNewEvent exTeams (.fetchOk []) true exStore).posts
        = [] ∧
    (handleGoalUpdate exNow [] exGameId exGoalNewEvent exTeams (.fetchOk []) true exStore).store =
      pruneGoalKey exNow (createGoalKey exGameId exGoalNewEvent) exStore ∧
    (findRec exStore (createGoalKey exGameId exGoalNewEvent) = none →
      (handleGoalUpdate exNow [] exGameId exGoalNewEvent exTeams (.fetchOk []) true exStore).store
        = exStore) :=
  c2_duplicate_dropped exNow [] exGameId exGoalNewEvent exTeams (.fetchOk []) true exStore
    exKey exRecPosted (by decide) (by decide) (by decide) (by decide) (by decide) (by decide)
    (by decide) (by decide) (by decide)

/-! ### Claim C3 -/

theorem updateCount_le_of_mem_newGoalPath {now : Nat} {goalKey : String} {goal : Goal}
    {teams : Teams} {refetch : FetchResult} {postOk : Bool} {st1 : Store}
    {kv : String × ScoreRecord}
    (hinv : ∀ kv1 ∈ st1, (kv1 : String × ScoreRecord).2.updateCount ≤ MAX_UPDATES)
    (h : kv ∈ (newGoalPath now goalKey goal teams refetch postOk st1).store) :
    kv.2.updateCount ≤ MAX_UPDATES := by
  rcases refetch with _ | plays
  · simp only [newGoalPath] at h
    rcases mem_setRec (mem_eraseRec h) with h1 | h1
    · rw [h1]; exact Nat.zero_le _
    · exact hinv kv h1
  · simp only [newGoalPath] at h
    split at h
    · split at h <;>
        ( rcases mem_setRec h with h1 | h1
          · rw [h1]; exact Nat.zero_le _
          · rcases mem_setRec h1 with h2 | h2
            · rw [h2]; exact Nat.zero_le _
            · exact hinv kv h2 )
    · rcases mem_setRec (mem_eraseRec h) with h1 | h1
      · rw [h1]; exact Nat.zero_le _
      · exact hinv kv h1

theorem updateCount_le_of_mem_retryPath {now : Nat} {goalKey : String} {goal : Goal}
    {teams : Teams} {postOk : Bool} {r : ScoreRecord} {st1 : Store}
    {kv : String × ScoreRecord}
    (hinv : ∀ kv1 ∈ st1, (kv1 : String × ScoreRecord).2.updateCount ≤ MAX_UPDATES)
    (hrc : r.updateCount ≤ MAX_UPDATES)
    (h : kv ∈ (retryPath now goalKey goal teams postOk r st1).store) :
    kv.2.updateCount ≤ MAX_UPDATES := by
  simp only [retryPath] at h
  split at h <;>
    ( rcases mem_setRec h with h1 | h1
      · rw [h1]; exact hrc
      · exact hinv kv h1 )

theorem updateCount_le_of_mem_updatePath {now : Nat} {goalKey : String} {goal : Goal}
    {teams : Teams} {postOk : Bool} {r : ScoreRecord} {st1 : Store}
    {kv : String × ScoreRecord}
    (hinv : ∀ kv1 ∈ st1, (kv1 : String × ScoreRecord).2.updateCount ≤ MAX_UPDATES)
    (hlt : r.updateCount < MAX_UPDATES)
    (h : kv ∈ (updatePath now goalKey goal teams postOk r st1).store) :
    kv.2.updateCount ≤ MAX_UPDATES := by
  simp only [updatePath] at h
  split at h
  · split at h <;>
      ( rcases mem_setRec h with h1 | h1
        · rw [h1]; exact hlt
        · exact hinv kv h1 )
  · rcases mem_setRec h with h1 | h1
    · rw [h1]; exact hlt
    · exact hinv kv h1

/-- Claim C3: `updateCount` never exceeds `MAX_UPDATES` (2).  First conjunct:
the bound is an invariant of `handleGoalUpdate` (it holds of every record in
the resulting store whenever it holds of the input store; new records start
at 0 and the update branch, guarded by `updateCount < MAX_UPDATES`, is the
only increment).  Second conjunct: once the record of a key is posted with
`updateCount ≥ MAX_UPDATES` - while within the retention window - a further
observation of that key produces no publish call at all. -/
theorem c3_update_count_bounded
    (now : Nat) (locks : Locks) (gameId : String) (goal : Goal) (teams : Teams)
    (refetch : FetchResult) (postOk : Bool) (st : Store)
    (hinv : ∀ kv ∈ st, (kv : String × ScoreRecord).2.updateCount ≤ MAX_UPDATES) :
    (∀ kv ∈ (handleGoalUpdate now locks gameId goal teams refetch postOk st).store,
        (kv : String × ScoreRecord).2.updateCount ≤ MAX_UPDATES) ∧
    (∀ r : ScoreRecord, findRec st (createGoalKey gameId goal) = some r →
      r.posted = true → MAX_UPDATES ≤ r.updateCount →
      getAgeInMinutes now r.timestamp ≤ 360 → isToday r.timestamp now = true →
      (handleGoalUpdate now locks gameId goal teams refetch postOk st).posts = []) := by
  have hinv1 : ∀ kv ∈ pruneGoalKey now (createGoalKey gameId goal) st,
      (kv : String × ScoreRecord).2.updateCount ≤ MAX_UPDATES :=
    fun kv hkv => hinv kv (mem_pruneGoalKey hkv)
  constructor
  · intro kv hkv
    unfold handleGoalUpdate at hkv
    split at hkv
    · exact hinv kv hkv
    · split at hkv
      · exact hinv1 kv hkv
      · unfold dispatchKey at hkv
        rcases hfind : findRec (pruneGoalKey now (createGoalKey gameId goal) st)
            (createGoalKey gameId goal) with _ | r
        · rw [hfind] at hkv
          exact updateCount_le_of_mem_newGoalPath hinv1 hkv
        · rw [hfind] at hkv
          dsimp only at hkv
          have hrc : r.updateCount ≤ MAX_UPDATES := hinv1 _ (mem_of_findRec hfind)
          split at hkv
          · exact updateCount_le_of_mem_retryPath hinv1 hrc hkv
          · split at hkv
            · rename_i hcond
              exact updateCount_le_of_mem_updatePath hinv1 hcond.2.1 hkv
            · exact hinv1 kv hkv
  · intro r hfind hposted hge hage htoday
    have hprune : pruneGoalKey now (createGoalKey gameId goal) st = st :=
      pruneGoalKey_noop hfind hage htoday
    unfold handleGoalUpdate
    rw [hprune]
    by_cases hlock : lockBlocks locks now (createGoalKey gameId goal) = true
    · rw [if_pos hlock]
    · rw [if_neg hlock]
      by_cases hscan : scanDuplicate gameId goal now st = true
      · rw [if_pos hscan]
      · rw [if_neg hscan]
        unfold dispatchKey
        rw [hfind]
        dsimp only
        have hnotfalse : ¬ r.posted = false := by rw [hposted]; exact fun hc => by cases hc
        have hnc : ¬ (r.posted = true ∧ r.updateCount < MAX_UPDATES ∧
            isToday r.timestamp now = true) :=
          fun hc => absurd hc.2.1 (Nat.not_lt.mpr hge)
        rw [if_neg hnotfalse, if_neg hnc]

/-- A posted record for `exGoal` whose update budget is exhausted. -/
def exRecExhausted : ScoreRecord :=
  { firstSeen := exNow, posted := true, updateCount := 2, timestamp := exNow, goal := exGoal }

def exStoreExhausted : Store := [(exKey, exRecExhausted)]

/-- Witness for C3: on a store satisfying the bound whose record has consumed
both updates, the bound still holds afterwards and no publish is made even
though the assists differ. -/
theorem c3_update_count_bounded_witness :
    (∀ kv ∈ (handleGoalUpdate exNow [] exGameId exGoalAssistsChanged exTeams (.fetchOk [exPlay7])
        true exStoreExhausted).store, (kv : String × ScoreRecord).2.updateCount ≤ MAX_UPDATES) ∧
    (∀ r : ScoreRecord,
      findRec exStoreExhausted (createGoalKey exGameId exGoalAssistsChanged) = some r →
      r.posted = true → MAX_UPDATES ≤ r.updateCount →
      getAgeInMinutes exNow r.timestamp ≤ 360 → isToday r.timestamp exNow = true →
      (handleGoalUpdate exNow [] exGameId exGoalAssistsChanged exTeams (.fetchOk [exPlay7])
        true exStoreExhausted).posts = []) :=
  c3_update_count_bounded exNow [] exGameId exGoalAssistsChanged exTeams (.fetchOk [exPlay7])
    true exStoreExhausted (by decide)

/-! ### Claim C9 -/

/-- Claim C9: on the new-goal path (no lock, no duplicate-scan match, no
record at the incoming key after the retention removal), the announcement is
built entirely from the Goal value captured at the first observation: the
re-fetched play-by-play after the settle delay is used only to test that a
play with the same `eventId` still exists.  Any two re-fetch results that
both contain the event - however their details differ - yield identical
outcomes, and the single publish is exactly
`formatGoalMessage goal teams false` for the captured goal. -/
theorem c9_announcement_from_first_observation
    (now : Nat) (locks : Locks) (gameId : String) (goal : Goal) (teams : Teams)
    (plays1 plays2 : List Play) (postOk : Bool) (st : Store)
    (hlock : lockBlocks locks now (createGoalKey gameId goal) = false)
    (hscan : scanDuplicate gameId goal now
      (pruneGoalKey now (createGoalKey gameId goal) st) = false)
    (hnew : findRec (pruneGoalKey now (createGoalKey gameId goal) st)
      (createGoalKey gameId goal) = none)
    (h1 : (plays1.find? fun p => p.eventId == goal.eventId).isSome = true)
    (h2 : (plays2.find? fun p => p.eventId == goal.eventId).isSome = true) :
    handleGoalUpdate now locks gameId goal teams (.fetchOk plays1) postOk st =
      handleGoalUpdate now locks gameId goal teams (.fetchOk plays2) postOk st ∧
    (handleGoalUpdate now locks gameId goal teams (.fetchOk plays1) postOk st).posts =
      [Post.goalPost (formatGoalMessage goal teams false)] := by
  have hlock' : ¬ lockBlocks locks now (createGoalKey gameId goal) = true := by
    rw [hlock]; exact fun hc => by cases hc
  have hscan' : ¬ scanDuplicate gameId goal now
      (pruneGoalKey now (createGoalKey gameId goal) st) = true := by
    rw [hscan]; exact fun hc => by cases hc
  have hred : ∀ plays : List Play,
      (plays.find? fun p => p.eventId == goal.eventId).isSome = true →
      handleGoalUpdate now locks gameId goal teams (.fetchOk plays) postOk st =
      { store := setRec (setRec (pruneGoalKey now (createGoalKey gameId goal) st)
            (createGoalKey gameId goal)
            { firstSeen := now, posted := false, updateCount := 0, timestamp := now, goal := goal })
          (createGoalKey gameId goal)
          { firstSeen := now, posted := postOk, updateCount := 0, timestamp := now, goal := goal },
        posts := [Post.goalPost (formatGoalMessage goal teams false)] } := by
    intro plays hp
    unfold handleGoalUpdate
    rw [if_neg hlock', if_neg hscan']
    unfold dispatchKey
    rw [hnew]
    simp only [newGoalPath, findRec_setRec_self, hp]
    cases postOk <;> simp
  exact ⟨by rw [hred plays1 h1, hred plays2 h2], by rw [hred plays1 h1]⟩

/-- `exPlay7` as the provider might revise it during the settle delay: a
different scorer, different assists, and a different clock. -/
def exPlay7Revised : Play :=
  { eventId := 7,
    details := some { scoringPlayerId := 99, eventOwnerTeamId := 20,
                      assists := [{ playerId := 42 }], awayScore := 0, homeScore := 1 },
    timeInPeriod := "04:15",
    periodDescriptor := { number := 1, periodType := "REG" } }

/-- Witness for C9: a fresh goal observed into an empty store, verified
against the original and a revised re-fetch, announces identically. -/
theorem c9_announcement_from_first_observation_witness :
    handleGoalUpdate exNow [] exGameId exGoal exTeams (.fetchOk [exPlay7]) true [] =
      handleGoalUpdate exNow [] exGameId exGoal exTeams (.fetchOk [exPlay7Revised]) true [] ∧
    (handleGoalUpdate exNow [] exGameId exGoal exTeams (.fetchOk [exPlay7]) true []).posts =
      [Post.goalPost (formatGoalMessage exGoal exTeams false)] :=
  c9_announcement_from_first_observation exNow [] exGameId exGoal exTeams [exPlay7]
    [exPlay7Revised] true [] (by decide) (by decide) (by decide) (by decide) (by decide)

/-! ### Claim C10 -/

/-- The id of a distinct game that is a string prefix of `exGameId`. -/
def exShortGameId : String := "2023"

/-- Claim C10: the duplicate scan tests same-game membership with
`key.startsWith(gameId)` (see `isDupMatch`), so a goal arriving for the
distinct game id "2023" - a string prefix of "2023020001" - is classified a
duplicate of the posted record of game "2023020001" that matches on period,
clock-minute, scorer, and raw score: no publish happens, the store is
unchanged, and no record is created for the own key of the incoming goal. -/
theorem c10_prefix_game_id_false_duplicate :
    exShortGameId ≠ exGameId ∧
    strStartsWith exKey exShortGameId = true ∧
    handleGoalUpdate exNow [] exShortGameId exGoal exTeams (.fetchOk [exPlay7]) true exStore =
      { store := exStore, posts := [] } ∧
    findRec exStore (createGoalKey exShortGameId exGoal) = none := by decide

/-! ### Claim C4 -/

/-- Counterexample to C4 as stated.  An exact-key record exists (posted,
same day, budget available) and the incoming goal differs from it only in
the assists, so under the claimed tie-break rule the update-candidate path
would run: `getUpdatedFields` is nonempty, a correction would be published
and `updateCount` would move to 1.  Instead the duplicate scan - which the
source runs before the exact-key lookup (src/index.mjs:273-306 versus 317) -
matches the exact-key record itself (period, clock-minute, scorer, and raw
scores are all identical) and the call returns with no publish and the store
untouched: the exact-key state-machine path is not taken even though an
exact-key record exists. -/
theorem c4_counterexample :
    findRec exStore (createGoalKey exGameId exGoalAssistsChanged) = some exRecPosted ∧
    exRecPosted.posted = true ∧
    exRecPosted.updateCount < MAX_UPDATES ∧
    isToday exRecPosted.timestamp exNow = true ∧
    getUpdatedFields exGoalAssistsChanged exRecPosted.goal ≠ [] ∧
    handleGoalUpdate exNow [] exGameId exGoalAssistsChanged exTeams (.fetchOk [exPlay7]) true
      exStore = { store := exStore, posts := [] } := by decide

/-- Claim C4 amended: the duplicate scan takes precedence over the exact-key
match, not the other way round.  The scan runs whether or not an exact-key
record exists; when it matches any posted same-day record (possibly the
exact-key record itself), the goal is dropped with no publish and no store
change beyond the retention removal.  The state-machine path of the record -
retry-post if unposted, update-candidate if posted with budget and recorded
today - is taken only when the scan matches nothing. -/
theorem c4_amended_scan_precedence
    (now : Nat) (locks : Locks) (gameId : String) (goal : Goal) (teams : Teams)
    (refetch : FetchResult) (postOk : Bool) (st : Store)
    (hlock : lockBlocks locks now (createGoalKey gameId goal) = false) :
    (scanDuplicate gameId goal now (pruneGoalKey now (createGoalKey gameId goal) st) = true →
      handleGoalUpdate now locks gameId goal teams refetch postOk st =
        { store := pruneGoalKey now (createGoalKey gameId goal) st, posts := [] }) ∧
    (scanDuplicate gameId goal now (pruneGoalKey now (createGoalKey gameId goal) st) = false →
      ∀ r : ScoreRecord,
        findRec (pruneGoalKey now (createGoalKey gameId goal) st) (createGoalKey gameId goal)
          = some r →
        (r.posted = false →
          handleGoalUpdate now locks gameId goal teams refetch postOk st =
            retryPath now (createGoalKey gameId goal) goal teams postOk r
              (pruneGoalKey now (createGoalKey gameId goal) st)) ∧
        (r.posted = true → r.updateCount < MAX_UPDATES → isToday r.timestamp now = true →
          handleGoalUpdate now locks gameId goal teams refetch postOk st =
            updatePath now (createGoalKey gameId goal) goal teams postOk r
              (pruneGoalKey now (createGoalKey gameId goal) st))) := by
  have hlock' : ¬ lockBlocks locks now (createGoalKey gameId goal) = true := by
    rw [hlock]; exact fun hc => by cases hc
  constructor
  · intro hscan
    unfold handleGoalUpdate
    rw [if_neg hlock', if_pos hscan]
  · intro hscan r hfind
    have hscan' : ¬ scanDuplicate gameId goal now
        (pruneGoalKey now (createGoalKey gameId goal) st) = true := by
      rw [hscan]; exact fun hc => by cases hc
    constructor
    · intro hunposted
      unfold handleGoalUpdate
      rw [if_neg hlock', if_neg hscan']
      unfold dispatchKey
      rw [hfind]
      dsimp only
      rw [if_pos hunposted]
    · intro hposted hlt htoday
      have hnotfalse : ¬ r.posted = false := by rw [hposted]; exact fun hc => by cases hc
      unfold handleGoalUpdate
      rw [if_neg hlock', if_neg hscan']
      unfold dispatchKey
      rw [hfind]
      dsimp only
      rw [if_neg hnotfalse, if_pos ⟨hposted, hlt, htoday⟩]

/-- An unposted record for `exGoal`, as created when a publish failed. -/
def exRecUnposted : ScoreRecord :=
  { firstSeen := exNow, posted := false, updateCount := 0, timestamp := exNow, goal := exGoal }

def exStoreUnposted : Store := [(exKey, exRecUnposted)]

/-- Witness for the amended C4: with an unposted exact-key record and no scan
match, the retry path is taken. -/
theorem c4_amended_scan_precedence_witness :
    (scanDuplicate exGameId exGoal exNow
        (pruneGoalKey exNow (createGoalKey exGameId exGoal) exStoreUnposted) = true →
      handleGoalUpdate exNow [] exGameId exGoal exTeams (.fetchOk [exPlay7]) true exStoreUnposted =
        { store := pruneGoalKey exNow (createGoalKey exGameId exGoal) exStoreUnposted,
          posts := [] }) ∧
    (scanDuplicate exGameId exGoal exNow
        (pruneGoalKey exNow (createGoalKey exGameId exGoal) exStoreUnposted) = false →
      ∀ r : ScoreRecord,
        findRec (pruneGoalKey exNow (createGoalKey exGameId exGoal) exStoreUnposted)
          (createGoalKey exGameId exGoal) = some r →
        (r.posted = false →
          handleGoalUpdate exNow [] exGameId exGoal exTeams (.fetchOk [exPlay7]) true
              exStoreUnposted =
            retryPath exNow (createGoalKey exGameId exGoal) exGoal exTeams true r
              (pruneGoalKey exNow (createGoalKey exGameId exGoal) exStoreUnposted)) ∧
        (r.posted = true → r.updateCount < MAX_UPDATES → isToday r.timestamp exNow = true →
          handleGoalUpdate exNow [] exGameId exGoal exTeams (.fetchOk [exPlay7]) true
              exStoreUnposted =
            updatePath exNow (createGoalKey exGameId exGoal) exGoal exTeams true r
              (pruneGoalKey exNow (createGoalKey exGameId exGoal) exStoreUnposted))) :=
  c4_amended_scan_precedence exNow [] exGameId exGoal exTeams (.fetchOk [exPlay7]) true
    exStoreUnposted (by decide)

/-! ### Claim C5 -/

/-- Counterexample to C5 as stated.  Every hypothesis of the claim holds:
the exact key of the incoming goal has a tracked record that is posted, has
`updateCount < MAX_UPDATES`, was recorded today (same Eastern day), and the
diff over scorer, assists, period, and display score is empty.  Yet a post
is issued: the record is 400 minutes old, so the forced removal at
src/index.mjs:250-267 evicts it before any classification, the goal re-enters
the new-goal path, and a fresh announcement is published. -/
theorem c5_counterexample :
    findRec exStoreStale (createGoalKey exGameId exGoal) = some exRecStale ∧
    exRecStale.posted = true ∧
    exRecStale.updateCount < MAX_UPDATES ∧
    isToday exRecStale.timestamp exNow = true ∧
    getUpdatedFields exGoal exRecStale.goal = [] ∧
    (handleGoalUpdate exNow [] exGameId exGoal exTeams (.fetchOk [exPlay7]) true
        exStoreStale).posts =
      [Post.goalPost (formatGoalMessage exGoal exTeams false)] := by decide

/-- Claim C5 amended: the no-post/no-change conclusion holds provided the
record is additionally within the 360-minute retention age (so the forced
per-key removal does not evict it) and the tracked goal agrees with the
incoming goal on the remaining identity-key components (clock-minute and raw
scores - agreement entailed by "the identity key matches" for records stored
under their own key).  Then the duplicate scan matches the record itself,
the observation is dropped, no post is issued, and the store - hence the
`updateCount` of the record - is completely unchanged. -/
theorem c5_amended_empty_diff_no_change
    (now : Nat) (locks : Locks) (gameId : String) (goal : Goal) (teams : Teams)
    (refetch : FetchResult) (postOk : Bool) (st : Store) (r : ScoreRecord)
    (hfind : findRec st (createGoalKey gameId goal) = some r)
    (hposted : r.posted = true)
    (hcount : r.updateCount < MAX_UPDATES)
    (htoday : isToday r.timestamp now = true)
    (hage : getAgeInMinutes now r.timestamp ≤ 360)
    (hdiff : getUpdatedFields goal r.goal = [])
    (hmin : minutesOf r.goal.time = minutesOf goal.time)
    (hraw : r.goal.rawScores = goal.rawScores) :
    (handleGoalUpdate now locks gameId goal teams refetch postOk st).posts = [] ∧
    (handleGoalUpdate now locks gameId goal teams refetch postOk st).store = st := by
  obtain ⟨hscorer, hassists, hperiod, hscore⟩ := getUpdatedFields_eq_nil hdiff
  have hprune : pruneGoalKey now (createGoalKey gameId goal) st = st :=
    pruneGoalKey_noop hfind hage htoday
  unfold handleGoalUpdate
  rw [hprune]
  by_cases hlock : lockBlocks locks now (createGoalKey gameId goal) = true
  · rw [if_pos hlock]
    exact ⟨rfl, rfl⟩
  · have hmatch : isDupMatch gameId goal now (createGoalKey gameId goal) r = true := by
      unfold isDupMatch
      simp [key_startsWith, hposted, htoday, hperiod, hmin, hscorer, hraw]
    have hscan : scanDuplicate gameId goal now st = true :=
      scanDuplicate_of_match (mem_of_findRec hfind) hmatch
    rw [if_neg hlock, if_pos hscan]
    exact ⟨rfl, rfl⟩

/-- Witness for the amended C5: re-observing `exGoal` unchanged against its
fresh posted record issues nothing and leaves the store as it was. -/
theorem c5_amended_empty_diff_no_change_witness :
    (handleGoalUpdate exNow [] exGameId exGoal exTeams (.fetchOk [exPlay7]) true exStore).posts
      = [] ∧
    (handleGoalUpdate exNow [] exGameId exGoal exTeams (.fetchOk [exPlay7]) true exStore).store
      = exStore :=
  c5_amended_empty_diff_no_change exNow [] exGameId exGoal exTeams (.fetchOk [exPlay7]) true
    exStore exRecPosted (by decide) (by decide) (by decide) (by decide) (by decide) (by decide)
    (by decide) (by decide)

/-! ### Claim C6 -/

/-- Counterexample to C6 as stated.  A record 400 minutes old - beyond the
360-minute threshold the source enforces - but still on the current Eastern
day survives the once-per-poll-cycle sweep (src/index.mjs:532-542) untouched,
because that sweep only performs a full clear on day rollover of the reset
marker; there is no per-record age sweep in the poll cycle. -/
theorem c6_counterexample :
    360 < getAgeInMinutes exNow exRecStale.timestamp ∧
    sweepScores exNow exNow exStoreStale = exStoreStale ∧
    findRec (sweepScores exNow exNow exStoreStale) exKey = some exRecStale := by decide

/-- Claim C6 amended: (1) a record dated a prior Eastern calendar day is
absent after the next poll-cycle sweep whenever the reset marker does not
postdate the record (the day rollover then forces the full clear); (2) a
record over the 360-minute age threshold or dated a prior day is removed not
by the cycle sweep but by the forced per-key removal the next time its exact
key is observed by `handleGoalUpdate`. -/
theorem c6_amended_retention :
    (∀ (lastReset now : Nat) (st : Store) (k : String) (r : ScoreRecord),
        findRec st k = some r → lastReset ≤ r.timestamp → r.timestamp ≤ now →
        isToday r.timestamp now = false →
        findRec (sweepScores lastReset now st) k = none) ∧
    (∀ (now : Nat) (k : String) (st : Store) (r : ScoreRecord),
        findRec st k = some r →
        (360 < getAgeInMinutes now r.timestamp ∨ isToday r.timestamp now = false) →
        findRec (pruneGoalKey now k st) k = none) := by
  constructor
  · intro lastReset now st k r hfind h1 h2 htoday
    have hreset : isToday lastReset now = false := isToday_false_of_le h1 h2 htoday
    simp [sweepScores, hreset, findRec]
  · exact fun now k st r hfind hcond => findRec_pruneGoalKey_gone hfind hcond

/-- A posted record dated the previous Eastern day. -/
def exRecPrevDay : ScoreRecord :=
  { firstSeen := exTsPrev, posted := true, updateCount := 0, timestamp := exTsPrev,
    goal := exGoal }

def exStorePrevDay : Store := [(exKey, exRecPrevDay)]

/-- Witness for the amended C6 on concrete stores: the prior-day record is
gone after the cycle sweep, and the age-expired record is gone after the
per-key removal. -/
theorem c6_amended_retention_witness :
    findRec (sweepScores exTsPrev exNow exStorePrevDay) exKey = none ∧
    findRec (pruneGoalKey exNow exKey exStoreStale) exKey = none :=
  ⟨c6_amended_retention.1 exTsPrev exNow exStorePrevDay exKey exRecPrevDay (by decide)
      (by decide) (by decide) (by decide),
   c6_amended_retention.2 exNow exKey exStoreStale exRecStale (by decide) (by decide)⟩

/-! ### Claim C7 -/

/-- Claim C7 evaluated on the code at the failing input.  After `exGoal` was
posted (record `exRecPosted`), a later observation of the same underlying
goal that changes only the scorer arrives.  Because the scorer is part of
`createGoalKey`, the observation carries a different identity key, the old
record is not matched (the duplicate scan compares scorers), and the goal
takes the new-goal path: the code publishes a second "GOAL!" announcement
built by `formatGoalMessage` - not the "CORRECTION: Goal now credited to
..." message the claim requires - and the `updateCount` of the old record stays
0 instead of moving to 1. -/
theorem c7_scorer_change_reposts_as_new :
    createGoalKey exGameId exGoalScorerChanged ≠ exKey ∧
    (handleGoalUpdate exNow [] exGameId exGoalScorerChanged exTeams (.fetchOk [exPlay7]) true
        exStore).posts =
      [Post.goalPost (formatGoalMessage exGoalScorerChanged exTeams false)] ∧
    (∀ p ∈ (handleGoalUpdate exNow [] exGameId exGoalScorerChanged exTeams (.fetchOk [exPlay7])
        true exStore).posts, isGoalAnnouncement p = true) ∧
    findRec (handleGoalUpdate exNow [] exGameId exGoalScorerChanged exTeams (.fetchOk [exPlay7])
        true exStore).store exKey = some exRecPosted := by decide

/-! ### Claim C8 -/

/-- Detail block whose owning-team id (30) matches neither team. -/
def exDetailsNeither : PlayDetails :=
  { scoringPlayerId := 42, eventOwnerTeamId := 30, assists := [], awayScore := 0, homeScore := 1 }

def exPlayNeither : Play :=
  { eventId := 7, details := some exDetailsNeither, timeInPeriod := "04:12",
    periodDescriptor := { number := 1, periodType := "REG" } }

def exGameData : GameData :=
  { plays := [exPlayNeither],
    rosterSpots := [{ playerId := 42, firstName := { default := "John" },
                      lastName := { default := "Doe" }, sweaterNumber := 97 }],
    homeTeam := { id := 10, teamAbbrev := "BOS" },
    awayTeam := { id := 20, teamAbbrev := "NYR" } }

/-- Counterexample to C8 as stated: a play whose owning-team id matches
the id of neither team is attributed to the abbreviation of the away team ("NYR"),
not to the literal "Unknown Team" - `processGoalPlay` only compares against
the home id and falls through to the away abbreviation
(src/index.mjs:187-189), and the fallback to `"Unknown Team"` fires only
when the selected abbreviation is falsy. -/
theorem c8_counterexample :
    exPlayNeither.details = some exDetailsNeither ∧
    exDetailsNeither.eventOwnerTeamId ≠ exGameData.homeTeam.id ∧
    exDetailsNeither.eventOwnerTeamId ≠ exGameData.awayTeam.id ∧
    (processGoalPlay exPlayNeither exGameData).map Goal.team = some "NYR" ∧
    (processGoalPlay exPlayNeither exGameData).map Goal.team ≠ some "Unknown Team" := by decide

/-- Claim C8 amended: team attribution compares the owning-team id against
the home id only; a match yields the home abbreviation, any other id -
including one matching neither team - yields the away abbreviation, and the
literal "Unknown Team" appears exactly when the abbreviation so selected is
the empty (JS-falsy) string. -/
theorem c8_amended_team_attribution
    (play : Play) (d : PlayDetails) (data : GameData)
    (hd : play.details = some d) :
    (d.eventOwnerTeamId = data.homeTeam.id → data.homeTeam.teamAbbrev ≠ "" →
      (processGoalPlay play data).map Goal.team = some data.homeTeam.teamAbbrev) ∧
    (d.eventOwnerTeamId ≠ data.homeTeam.id → data.awayTeam.teamAbbrev ≠ "" →
      (processGoalPlay play data).map Goal.team = some data.awayTeam.teamAbbrev) ∧
    (d.eventOwnerTeamId ≠ data.homeTeam.id → data.awayTeam.teamAbbrev = "" →
      (processGoalPlay play data).map Goal.team = some "Unknown Team") := by
  refine ⟨fun h1 h2 => ?_, fun h1 h2 => ?_, fun h1 h2 => ?_⟩ <;>
    simp [processGoalPlay, hd, h1, h2]

/-- Witness for the amended C8 at the neither-team play. -/
theorem c8_amended_team_attribution_witness :
    (exDetailsNeither.eventOwnerTeamId = exGameData.homeTeam.id →
        exGameData.homeTeam.teamAbbrev ≠ "" →
      (processGoalPlay exPlayNeither exGameData).map Goal.team
        = some exGameData.homeTeam.teamAbbrev) ∧
    (exDetailsNeither.eventOwnerTeamId ≠ exGameData.homeTeam.id →
        exGameData.awayTeam.teamAbbrev ≠ "" →
      (processGoalPlay exPlayNeither exGameData).map Goal.team
        = some exGameData.awayTeam.teamAbbrev) ∧
    (exDetailsNeither.eventOwnerTeamId ≠ exGameData.homeTeam.id →
        exGameData.awayTeam.teamAbbrev = "" →
      (processGoalPlay exPlayNeither exGameData).map Goal.team = some "Unknown Team") :=
  c8_amended_team_attribution exPlayNeither exDetailsNeither exGameData (by decide)

end NHLGoalBot
